import Mathlib

/-!
Shallow embedding of the agno-mock-server example scripts
(examples/agno-mock-server/agent.py and examples/agno-mock-server/server.py).

The Python code consists of typed record shapes (TypedDict declarations),
five backend "fetch" tools that return hardcoded literal collections,
six frontend "render" tools whose bodies are `pass`, and one extra HTTP
route (`/transcribe`) that sleeps 1.5 seconds and returns a fixed JSON
payload.

Modelling choices:
- Python `TypedDict` shapes become Lean structures with the same field
  names and order.
- Numeric literals in the fixtures are integers except the laptop
  `rating` values, which are decimal literals and are embedded as exact
  rationals.
- At runtime a TypedDict value is a plain string-keyed dict; the
  `toDict` functions reconstruct that key/value view of each record so
  that field-set conformance is a statement about the dict keys the
  Python literals carry.
- Render tools have empty bodies (`pass`); under a state-passing
  semantics their denotation takes an arbitrary program state `s` and
  returns the Python `None` result (here `Unit`) together with the
  unchanged state.
- The `transcribe` handler is embedded as the ordered trace of effects
  its body performs: a sleep followed by a JSON response.
-/

/-- Runtime values appearing in the Python dict literals of agent.py. -/
inductive PyVal : Type
  | str (s : String)
  | int (n : Int)
  | rat (q : ℚ)
  | bool (b : Bool)
deriving DecidableEq

/-- TypedDict `RevenueData` (agent.py lines 27-30). -/
structure RevenueData where
  month : String
  revenue : Int
  expenses : Int
deriving DecidableEq

/-- TypedDict `CarData` (agent.py lines 32-40). -/
structure CarData where
  id : String
  name : String
  description : String
  price_per_day : Int
  type : String
  seats : Int
  image_url : String
  available : Bool
deriving DecidableEq

/-- TypedDict `ProductData` (agent.py lines 42-49). -/
structure ProductData where
  name : String
  price : Int
  cpu : String
  ram : String
  storage : String
  display : String
  rating : ℚ
deriving DecidableEq

/-- TypedDict `DashboardMetrics` (agent.py lines 51-57). -/
structure DashboardMetrics where
  totalSales : Int
  newCustomers : Int
  activeProjects : Int
  salesTrend : String
  customerTrend : String
  projectStatus : String
deriving DecidableEq

/-- Shape of the `get_market_share_data` dict entries (agent.py lines 223-228). -/
structure MarketShareEntry where
  company : String
  share : Int
deriving DecidableEq

/-- The runtime dict view of a `RevenueData` record: the keys of the
Python dict literal, in source order. -/
def RevenueData.toDict (r : RevenueData) : List (String × PyVal) :=
  [("month", PyVal.str r.month),
   ("revenue", PyVal.int r.revenue),
   ("expenses", PyVal.int r.expenses)]

/-- The runtime dict view of a `CarData` record. -/
def CarData.toDict (c : CarData) : List (String × PyVal) :=
  [("id", PyVal.str c.id),
   ("name", PyVal.str c.name),
   ("description", PyVal.str c.description),
   ("price_per_day", PyVal.int c.price_per_day),
   ("type", PyVal.str c.type),
   ("seats", PyVal.int c.seats),
   ("image_url", PyVal.str c.image_url),
   ("available", PyVal.bool c.available)]

/-- The runtime dict view of a `ProductData` record. -/
def ProductData.toDict (p : ProductData) : List (String × PyVal) :=
  [("name", PyVal.str p.name),
   ("price", PyVal.int p.price),
   ("cpu", PyVal.str p.cpu),
   ("ram", PyVal.str p.ram),
   ("storage", PyVal.str p.storage),
   ("display", PyVal.str p.display),
   ("rating", PyVal.rat p.rating)]

/-- The runtime dict view of a `DashboardMetrics` record. -/
def DashboardMetrics.toDict (d : DashboardMetrics) : List (String × PyVal) :=
  [("totalSales", PyVal.int d.totalSales),
   ("newCustomers", PyVal.int d.newCustomers),
   ("activeProjects", PyVal.int d.activeProjects),
   ("salesTrend", PyVal.str d.salesTrend),
   ("customerTrend", PyVal.str d.customerTrend),
   ("projectStatus", PyVal.str d.projectStatus)]

/-- The quarterly literal returned by `get_revenue_data` (agent.py lines 75-80). -/
def quarterlyRevenueData : List RevenueData :=
  [{month := "Q1", revenue := 18000, expenses := 10500},
   {month := "Q2", revenue := 21000, expenses := 12000},
   {month := "Q3", revenue := 24000, expenses := 13500},
   {month := "Q4", revenue := 27000, expenses := 15000}]

/-- The monthly literal returned by `get_revenue_data` (agent.py lines 82-89). -/
def monthlyRevenueData : List RevenueData :=
  [{month := "Jan", revenue := 5000, expenses := 3000},
   {month := "Feb", revenue := 6000, expenses := 3500},
   {month := "Mar", revenue := 7000, expenses := 4000},
   {month := "Apr", revenue := 7500, expenses := 4200},
   {month := "May", revenue := 8000, expenses := 4500},
   {month := "Jun", revenue := 8500, expenses := 4800}]

/-- `get_revenue_data` (agent.py lines 63-89): returns the quarterly
table when `period == "quarterly"`, the monthly table otherwise. -/
def get_revenue_data (period : String) : List RevenueData :=
  if period = "quarterly" then quarterlyRevenueData else monthlyRevenueData

/-- The literal returned by `get_rental_cars` (agent.py lines 102-143). -/
def rentalCarsData : List CarData :=
  [{id := "car-1",
    name := "Tesla Model 3",
    description := "Electric sedan with autopilot and premium interior",
    price_per_day := 120,
    type := "Electric",
    seats := 5,
    image_url := "https://images.unsplash.com/photo-1560958089-b8a1929cea89?w=400",
    available := true},
   {id := "car-2",
    name := "BMW X5",
    description := "Luxury SUV with advanced safety features",
    price_per_day := 150,
    type := "SUV",
    seats := 7,
    image_url := "https://images.unsplash.com/photo-1555215695-3004980ad54e?w=400",
    available := true},
   {id := "car-3",
    name := "Honda Civic",
    description := "Reliable and fuel-efficient compact car",
    price_per_day := 45,
    type := "Compact",
    seats := 5,
    image_url := "https://images.unsplash.com/photo-1590362891991-f776e747a588?w=400",
    available := true},
   {id := "car-4",
    name := "Ford Mustang",
    description := "Iconic sports car with powerful performance",
    price_per_day := 95,
    type := "Sports",
    seats := 4,
    image_url := "https://images.unsplash.com/photo-1584345604476-8ec5f8f2c8c2?w=400",
    available := false}]

/-- `get_rental_cars` (agent.py lines 91-143): ignores `location`. -/
def get_rental_cars (location : String) : List CarData :=
  rentalCarsData

/-- The literal returned by `get_laptop_comparison` (agent.py lines 156-193). -/
def laptopComparisonData : List ProductData :=
  [{name := "MacBook Pro 16\"",
    price := 2499,
    cpu := "M3 Max",
    ram := "32GB",
    storage := "1TB SSD",
    display := "16.2\" Retina",
    rating := 4.8},
   {name := "Dell XPS 15",
    price := 1899,
    cpu := "Intel i9",
    ram := "32GB",
    storage := "1TB SSD",
    display := "15.6\" OLED",
    rating := 4.6},
   {name := "Lenovo ThinkPad X1",
    price := 1699,
    cpu := "Intel i7",
    ram := "16GB",
    storage := "512GB SSD",
    display := "14\" IPS",
    rating := 4.5},
   {name := "ASUS ROG Zephyrus",
    price := 2199,
    cpu := "AMD Ryzen 9",
    ram := "32GB",
    storage := "1TB SSD",
    display := "15.6\" QHD",
    rating := 4.7}]

/-- `get_laptop_comparison` (agent.py lines 145-193): ignores `category`. -/
def get_laptop_comparison (category : String) : List ProductData :=
  laptopComparisonData

/-- The literal returned by `get_dashboard_metrics` (agent.py lines 206-213). -/
def dashboardMetricsData : DashboardMetrics :=
  {totalSales := 125000,
   newCustomers := 234,
   activeProjects := 12,
   salesTrend := "+12.5%",
   customerTrend := "+8.3%",
   projectStatus := "On Track"}

/-- `get_dashboard_metrics` (agent.py lines 195-213): ignores `userId`. -/
def get_dashboard_metrics (userId : String) : DashboardMetrics :=
  dashboardMetricsData

/-- The literal returned by `get_market_share_data` (agent.py lines 223-228). -/
def marketShareData : List MarketShareEntry :=
  [{company := "Company A", share := 35},
   {company := "Company B", share := 28},
   {company := "Company C", share := 22},
   {company := "Company D", share := 15}]

/-- `get_market_share_data` (agent.py lines 215-228): no parameters. -/
def get_market_share_data : List MarketShareEntry :=
  marketShareData

/-- `render_revenue_chart` (agent.py lines 234-248): body is `pass`.
Under state-passing semantics over an arbitrary server state `σ` it
returns Python `None` (`Unit`) and the unchanged state. -/
def render_revenue_chart (σ : Type) (data : List RevenueData)
    (period : String) (chartType : String) : σ → Unit × σ :=
  fun s => ((), s)

/-- `render_rental_cars` (agent.py lines 250-259): body is `pass`. -/
def render_rental_cars (σ : Type) (data : List CarData)
    (location : String) : σ → Unit × σ :=
  fun s => ((), s)

/-- `render_product_comparison` (agent.py lines 261-270): body is `pass`. -/
def render_product_comparison (σ : Type) (data : List ProductData)
    (category : String) : σ → Unit × σ :=
  fun s => ((), s)

/-- `render_dashboard` (agent.py lines 272-281): body is `pass`;
`userId` defaults to Python `None`, hence `Option String`. -/
def render_dashboard (σ : Type) (data : DashboardMetrics)
    (userId : Option String) : σ → Unit × σ :=
  fun s => ((), s)

/-- `render_visualization` (agent.py lines 283-293): body is `pass`;
`data` is a list of untyped dicts. -/
def render_visualization (σ : Type) (data : List (List (String × PyVal)))
    (query : String) (chartType : Option String) : σ → Unit × σ :=
  fun s => ((), s)

/-- `show_alert` (agent.py lines 295-303): body is `pass`. -/
def show_alert (σ : Type) (content : String) : σ → Unit × σ :=
  fun s => ((), s)

/-- An effect performed by an HTTP handler in server.py, in order. -/
inductive ServerEffect : Type
  | sleep (seconds : ℚ)
  | jsonResponse (body : List (String × PyVal))
deriving DecidableEq

/-- `transcribe` (server.py lines 61-64): awaits `asyncio.sleep(1.5)` and
then returns a `JSONResponse` with the fixed payload, for any request. -/
def transcribe (request : String) : List ServerEffect :=
  [ServerEffect.sleep 1.5,
   ServerEffect.jsonResponse
     [("transcription",
       PyVal.str "This is a fake transcription. Implement the backend to transcribe.")]]

/-- The path the transcribe handler is registered under (server.py line 66). -/
def transcribeRoutePath : String := "/transcribe"

/-- The HTTP methods the transcribe route accepts (server.py line 66). -/
def transcribeRouteMethods : List String := ["POST"]

/-- C1: the monthly revenue list returned by `get_revenue_data` for the
default period "monthly" has exactly 6 entries, starts with the record
⟨"Jan", 5000, 3000⟩, and every record matches the hardcoded sample. -/
theorem monthly_revenue_fixture :
    (get_revenue_data "monthly").length = 6 ∧
    (get_revenue_data "monthly").head? =
      some {month := "Jan", revenue := 5000, expenses := 3000} ∧
    get_revenue_data "monthly" =
      [{month := "Jan", revenue := 5000, expenses := 3000},
       {month := "Feb", revenue := 6000, expenses := 3500},
       {month := "Mar", revenue := 7000, expenses := 4000},
       {month := "Apr", revenue := 7500, expenses := 4200},
       {month := "May", revenue := 8000, expenses := 4500},
       {month := "Jun", revenue := 8500, expenses := 4800}] := by
  refine ⟨?_, ?_, ?_⟩ <;> decide

/-- C2: `get_revenue_data "quarterly"` returns exactly 4 records labelled
Q1 through Q4, and the quarterly result is produced exactly when the
period argument is the exact string "quarterly". -/
theorem quarterly_revenue_fixture :
    (get_revenue_data "quarterly").length = 4 ∧
    (get_revenue_data "quarterly").map RevenueData.month =
      ["Q1", "Q2", "Q3", "Q4"] ∧
    ∀ p : String, get_revenue_data p = get_revenue_data "quarterly" ↔
      p = "quarterly" := by
  refine ⟨by decide, by decide, ?_⟩
  intro p
  constructor
  · intro h
    by_contra hp
    unfold get_revenue_data at h
    rw [if_neg hp, if_pos rfl] at h
    exact absurd h (by decide)
  · intro hp
    rw [hp]

/-- C2 witness: instantiates the branch characterisation at "quarterly". -/
theorem quarterly_revenue_fixture_witness :
    get_revenue_data "quarterly" = get_revenue_data "quarterly" :=
  (quarterly_revenue_fixture.2.2 "quarterly").mpr rfl

/-- C3 counterexample: the claim that `get_revenue_data` returns equal
results for any two period arguments is false: "quarterly" and "monthly"
yield different lists. -/
theorem revenue_period_not_ignored :
    get_revenue_data "quarterly" ≠ get_revenue_data "monthly" := by
  decide

/-- C3 (amended): `get_rental_cars`, `get_laptop_comparison` and
`get_dashboard_metrics` return equal results for any two arguments (the
argument is ignored); `get_revenue_data` returns equal results for any
two period arguments that agree on being the exact string "quarterly". -/
theorem fetch_args_ignored :
    (∀ l1 l2 : String, get_rental_cars l1 = get_rental_cars l2) ∧
    (∀ c1 c2 : String, get_laptop_comparison c1 = get_laptop_comparison c2) ∧
    (∀ u1 u2 : String, get_dashboard_metrics u1 = get_dashboard_metrics u2) ∧
    (∀ p1 p2 : String, (p1 = "quarterly" ↔ p2 = "quarterly") →
      get_revenue_data p1 = get_revenue_data p2) := by
  refine ⟨fun _ _ => rfl, fun _ _ => rfl, fun _ _ => rfl, ?_⟩
  intro p1 p2 h
  unfold get_revenue_data
  by_cases h1 : p1 = "quarterly"
  · rw [if_pos h1, if_pos (h.mp h1)]
  · rw [if_neg h1, if_neg (fun h2 => h1 (h.mpr h2))]

/-- C3 witness: instantiates the amended equality at concrete arguments,
discharging the hypothesis of the revenue conjunct. -/
theorem fetch_args_ignored_witness :
    get_rental_cars "San Francisco" = get_rental_cars "Paris" ∧
    get_revenue_data "monthly" = get_revenue_data "yearly" :=
  ⟨fetch_args_ignored.1 "San Francisco" "Paris",
   fetch_args_ignored.2.2.2 "monthly" "yearly" (by decide)⟩

/-- C4: every fetch function returns normally on every input — each
input fully evaluates to one of the literal fixtures — and every render
function returns Python None with the server state unchanged, so it
cannot fail. -/
theorem fetch_render_total :
    (∀ p : String, get_revenue_data p = quarterlyRevenueData ∨
      get_revenue_data p = monthlyRevenueData) ∧
    (∀ l : String, get_rental_cars l = rentalCarsData) ∧
    (∀ c : String, get_laptop_comparison c = laptopComparisonData) ∧
    (∀ u : String, get_dashboard_metrics u = dashboardMetricsData) ∧
    get_market_share_data = marketShareData ∧
    (∀ (σ : Type) (s : σ),
      (∀ d p c, render_revenue_chart σ d p c s = ((), s)) ∧
      (∀ d l, render_rental_cars σ d l s = ((), s)) ∧
      (∀ d c, render_product_comparison σ d c s = ((), s)) ∧
      (∀ d u, render_dashboard σ d u s = ((), s)) ∧
      (∀ d q c, render_visualization σ d q c s = ((), s)) ∧
      (∀ c, show_alert σ c s = ((), s))) := by
  refine ⟨?_, fun _ => rfl, fun _ => rfl, fun _ => rfl, rfl, ?_⟩
  · intro p
    unfold get_revenue_data
    by_cases h : p = "quarterly"
    · exact Or.inl (if_pos h)
    · exact Or.inr (if_neg h)
  · intro σ s
    exact ⟨fun _ _ _ => rfl, fun _ _ => rfl, fun _ _ => rfl,
           fun _ _ => rfl, fun _ _ _ => rfl, fun _ => rfl⟩

/-- C5: every record returned by a fetch function carries exactly the
declared field set of its type, as the keys of its runtime dict. -/
theorem record_field_sets :
    (∀ p : String, ∀ r ∈ get_revenue_data p,
      r.toDict.map Prod.fst = ["month", "revenue", "expenses"]) ∧
    (∀ l : String, ∀ c ∈ get_rental_cars l,
      c.toDict.map Prod.fst =
        ["id", "name", "description", "price_per_day", "type", "seats",
         "image_url", "available"]) ∧
    (∀ c : String, ∀ p ∈ get_laptop_comparison c,
      p.toDict.map Prod.fst =
        ["name", "price", "cpu", "ram", "storage", "display", "rating"]) ∧
    (∀ u : String, (get_dashboard_metrics u).toDict.map Prod.fst =
      ["totalSales", "newCustomers", "activeProjects", "salesTrend",
       "customerTrend", "projectStatus"]) :=
  ⟨fun _ _ _ => rfl, fun _ _ _ => rfl, fun _ _ _ => rfl, fun _ => rfl⟩

/-- C5 witness: instantiates the field-set statement at concrete records
of the fixtures, discharging the membership hypotheses. -/
theorem record_field_sets_witness :
    ({month := "Jan", revenue := 5000, expenses := 3000} :
        RevenueData).toDict.map Prod.fst = ["month", "revenue", "expenses"] ∧
    (rentalCarsData.head?.getD
        {id := "", name := "", description := "", price_per_day := 0,
         type := "", seats := 0, image_url := "", available := false}).toDict.map
        Prod.fst =
      ["id", "name", "description", "price_per_day", "type", "seats",
       "image_url", "available"] :=
  ⟨record_field_sets.1 "monthly"
      {month := "Jan", revenue := 5000, expenses := 3000} (by decide),
   record_field_sets.2.1 "San Francisco" _ (by decide)⟩

/-- C6: every render function has an empty body: for every input it
returns Python None (Unit) and leaves the program state unchanged. -/
theorem render_no_server_effect :
    ∀ (σ : Type) (s : σ),
      (∀ (data : List RevenueData) (period chartType : String),
        render_revenue_chart σ data period chartType s = ((), s)) ∧
      (∀ (data : List CarData) (location : String),
        render_rental_cars σ data location s = ((), s)) ∧
      (∀ (data : List ProductData) (category : String),
        render_product_comparison σ data category s = ((), s)) ∧
      (∀ (data : DashboardMetrics) (userId : Option String),
        render_dashboard σ data userId s = ((), s)) ∧
      (∀ (data : List (List (String × PyVal))) (query : String)
          (chartType : Option String),
        render_visualization σ data query chartType s = ((), s)) ∧
      (∀ content : String, show_alert σ content s = ((), s)) :=
  fun _ _ =>
    ⟨fun _ _ _ => rfl, fun _ _ => rfl, fun _ _ => rfl,
     fun _ _ => rfl, fun _ _ _ => rfl, fun _ => rfl⟩

/-- C7: for every POST request to the /transcribe route, regardless of
body, the handler sleeps 1.5 seconds and only then responds with the
fixed JSON payload whose transcription field is the literal string. -/
theorem transcribe_fixed_response :
    (∀ request : String,
      transcribe request =
        [ServerEffect.sleep (3 / 2),
         ServerEffect.jsonResponse
           [("transcription",
             PyVal.str "This is a fake transcription. Implement the backend to transcribe.")]]) ∧
    transcribeRoutePath = "/transcribe" ∧
    transcribeRouteMethods = ["POST"] := by
  refine ⟨fun _ => ?_, rfl, rfl⟩
  unfold transcribe
  norm_num

/-- C8: every record returned by `get_revenue_data`, in both branches,
has non-negative revenue and expense amounts. -/
theorem revenue_amounts_nonneg :
    ∀ p : String, ∀ r ∈ get_revenue_data p,
      (0 : Int) ≤ r.revenue ∧ (0 : Int) ≤ r.expenses := by
  intro p r hr
  have hq : ∀ x ∈ quarterlyRevenueData,
      (0 : Int) ≤ x.revenue ∧ (0 : Int) ≤ x.expenses := by decide
  have hm : ∀ x ∈ monthlyRevenueData,
      (0 : Int) ≤ x.revenue ∧ (0 : Int) ≤ x.expenses := by decide
  unfold get_revenue_data at hr
  split at hr
  · exact hq r hr
  · exact hm r hr

/-- C8 witness: instantiates non-negativity at the first monthly record. -/
theorem revenue_amounts_nonneg_witness :
    (0 : Int) ≤ ({month := "Jan", revenue := 5000, expenses := 3000} :
      RevenueData).revenue ∧
    (0 : Int) ≤ ({month := "Jan", revenue := 5000, expenses := 3000} :
      RevenueData).expenses :=
  revenue_amounts_nonneg "monthly"
    {month := "Jan", revenue := 5000, expenses := 3000} (by decide)

/-- C9: for every period other than the exact string "quarterly" —
including "yearly", which the docstring lists as supported —
`get_revenue_data` returns the same 6-entry monthly list; there is no
distinct yearly dataset. -/
theorem non_quarterly_returns_monthly :
    (∀ p : String, p ≠ "quarterly" →
      get_revenue_data p = monthlyRevenueData) ∧
    get_revenue_data "yearly" = get_revenue_data "monthly" ∧
    monthlyRevenueData.length = 6 := by
  refine ⟨?_, by decide, by decide⟩
  intro p hp
  unfold get_revenue_data
  exact if_neg hp

/-- C9 witness: instantiates the statement at the period "yearly". -/
theorem non_quarterly_returns_monthly_witness :
    get_revenue_data "yearly" = monthlyRevenueData :=
  non_quarterly_returns_monthly.1 "yearly" (by decide)

/-- C10: the four share values returned by `get_market_share_data` sum
to exactly 100, forming a complete percentage partition. -/
theorem market_share_sums_to_100 :
    get_market_share_data.length = 4 ∧
    (get_market_share_data.map MarketShareEntry.share).sum = 100 := by
  refine ⟨by decide, by decide⟩
